import Mathlib

/-!
Verification of the reranker service core (`src/server/model/bge_reranker.py`
and the `/api/rerank` handler in `src/server/http_server.py`).

Modelling choices:
* Relevance scores (Python floats coming out of the cross-encoder and the
  wall-clock durations) are modelled as rationals `ℚ`; the claims under
  study concern selection, ordering and bookkeeping, not float rounding.
* The third-party `CrossEncoder.predict` is opaque: it is modelled as a
  function from the list of (query, document) pairs to `Except String (List ℚ)`,
  stored in the `model` field (`self.model`, `None` before `load_model`).
  An `Except.error` models an exception raised inside the scoring step.
* `time.time()` deltas are modelled by an explicit `elapsed` parameter.
* Python's `list.sort(key=lambda x: x[1], reverse=True)` is a stable
  descending sort; it is modelled by `List.insertionSort` with the relation
  `descBy a b := b.2 ≤ a.2`, which is a stable sort in the same sense.
* Python dicts with optionally-present keys (the `metrics` dict) are
  modelled by a structure with `Option` fields; `none` means the key is
  absent from the dict.
-/

namespace RerankerService

abbrev Score := ℚ

deriving instance DecidableEq for Except

/-- Opaque model inference: `self.model.predict(pairs, ...)`; an `error`
models an exception raised inside the underlying inference call. -/
def PredictFn : Type := List (String × String) → Except String (List Score)

/-- Mirror of `ServiceConfig` in `src/config/service_config.py` (fields the
core uses; defaults from the dataclass). -/
structure ServiceConfig where
  host : String := "0.0.0.0"
  port : Nat := 8000
  workers : Nat := 1
  model_name : String := "BAAI/bge-reranker-v2-m3"
  max_length : Nat := 512
  batch_size : Nat := 32
  device : String := "cuda"
  use_fp16 : Bool := true

def config : ServiceConfig := {}

/-- Mutable fields of `BGEReranker` (`__init__`, bge_reranker.py lines 15-23),
the spec's `ModelState`. `model` is `None` until `load_model` succeeds. -/
structure ModelState where
  model : Option PredictFn
  model_name : String
  device : String
  is_loaded : Bool
  load_time : Score
  total_queries : Nat
  total_processing_time : Score

/-- The state `__init__` builds: model `None`, flag false, counters zero. -/
def init_state : ModelState :=
  { model := none
    model_name := config.model_name
    device := config.device
    is_loaded := false
    load_time := 0
    total_queries := 0
    total_processing_time := 0 }

/-- Errors the engine raises: `RuntimeError("模型未加载")` before load, and
re-raised scoring exceptions (spec names: ModelNotLoaded, ScoringFailure). -/
inductive RerankError where
  | modelNotLoaded : RerankError
  | scoringFailure : String → RerankError
  deriving DecidableEq, Repr

/-- The `metrics` dict returned by `rerank`; `none` models an absent key
(the empty-documents early return builds a dict with only the first two
keys, bge_reranker.py line 103). -/
structure Metrics where
  processing_time : Score
  documents_processed : Nat
  batch_size : Option Nat
  average_score : Option Score
  max_score : Option Score
  min_score : Option Score
  deriving DecidableEq, Repr

/-- Value of `np.max` on a non-empty list (0 is never used: the call sites
guard on non-emptiness, mirroring `if len(scores) > 0`). -/
def listMax : List Score → Score
  | [] => 0
  | x :: xs => xs.foldl max x

/-- Value of `np.min` on a non-empty list. -/
def listMin : List Score → Score
  | [] => 0
  | x :: xs => xs.foldl min x

/-- Value of `np.mean`: sum divided by length. -/
def listMean (l : List Score) : Score := l.sum / (l.length : Score)

/-- Sort relation of `scored_docs.sort(key=lambda x: x[1], reverse=True)`:
descending by score. -/
def descBy (a b : String × Score) : Prop := b.2 ≤ a.2

instance : DecidableRel descBy := fun a b => inferInstanceAs (Decidable (b.2 ≤ a.2))

instance : IsTotal (String × Score) descBy := ⟨fun a b => le_total b.2 a.2⟩

instance : IsTrans (String × Score) descBy :=
  ⟨fun _ _ _ h1 h2 => le_trans h2 h1⟩

/-- Translation of `BGEReranker.rerank` (bge_reranker.py lines 93-160).
Returns the `(ranked_documents, ranked_scores, metrics)` triple or the
raised error, together with the state after the call. -/
def rerank (s : ModelState) (query : String) (documents : List String)
    (top_k batch_size : Option Nat) (elapsed : Score) :
    Except RerankError (List String × List Score × Metrics) × ModelState :=
  match s.model with
  | none => (.error .modelNotLoaded, s)
  | some f =>
    if !s.is_loaded then (.error .modelNotLoaded, s)
    else if documents.isEmpty then
      (.ok ([], [], { processing_time := 0, documents_processed := 0,
                      batch_size := none, average_score := none,
                      max_score := none, min_score := none }), s)
    else
      let tk := top_k.getD documents.length
      let bs := batch_size.getD config.batch_size
      -- `self.total_queries += 1` happens before the try block
      let s1 : ModelState := { s with total_queries := s.total_queries + 1 }
      let pairs := documents.map (fun d => (query, d))
      match f pairs with
      | .error e => (.error (.scoringFailure e), s1)
      | .ok scores =>
        let scored_docs := documents.zip scores
        let sorted := List.insertionSort descBy scored_docs
        let ranked_documents := (sorted.take tk).map Prod.fst
        let ranked_scores := (sorted.take tk).map Prod.snd
        let s2 : ModelState :=
          { s1 with total_processing_time := s1.total_processing_time + elapsed }
        let metrics : Metrics :=
          { processing_time := elapsed
            documents_processed := documents.length
            batch_size := some bs
            average_score := some (if scores.length > 0 then listMean scores else 0)
            max_score := some (if scores.length > 0 then listMax scores else 0)
            min_score := some (if scores.length > 0 then listMin scores else 0) }
        (.ok (ranked_documents, ranked_scores, metrics), s2)

/-- Info dict built by `BGEReranker.get_model_info` (lines 162-176). -/
structure ModelInfo where
  model_name : String
  is_loaded : Bool
  device : String
  load_time : Score
  total_queries : Nat
  average_processing_time : Score
  max_length : Nat
  deriving Repr

/-- Translation of `BGEReranker.get_model_info`: `avg_time = 0` unless
`total_queries > 0`, in which case it is the quotient. -/
def get_model_info (s : ModelState) : ModelInfo :=
  let avg_time : Score :=
    if s.total_queries > 0 then s.total_processing_time / (s.total_queries : Score)
    else 0
  { model_name := s.model_name
    is_loaded := s.is_loaded
    device := s.device
    load_time := s.load_time
    total_queries := s.total_queries
    average_processing_time := avg_time
    max_length := config.max_length }

/-- The synthetic warmup pairs of `BGEReranker._warmup` (lines 66-70). -/
def warmup_queries : List (String × String) :=
  [("军队体检视力标准", "视力检查要求双眼裸眼视力不低于4.8"),
   ("体检肝功能指标", "肝功能检查包括ALT、AST等指标")]

/-- Whether the warmup predict calls of `_warmup` succeed; `_warmup` catches
any exception and only logs it, so this value has no effect on state. -/
def warmup_succeeds (f : PredictFn) : Bool :=
  match f warmup_queries with
  | .ok _ => true
  | .error _ => false

/-- Translation of `BGEReranker.load_model` (lines 25-62). `ctor` is the
outcome of the `CrossEncoder` construction (`none` models an exception, in
which case the handler sets `is_loaded = False` and returns `False`). On
the success path the flag is assigned `True` and then `_warmup()` runs;
`_warmup` swallows its own exceptions and mutates nothing. -/
def load_model (ctor : Option PredictFn) (load_elapsed : Score)
    (s : ModelState) : Bool × ModelState :=
  match ctor with
  | none => (false, { s with is_loaded := false })
  | some f =>
    let s1 : ModelState :=
      { s with model := some f, load_time := load_elapsed, is_loaded := true }
    -- `self._warmup()` runs here; its predict outcome `warmup_succeeds f`
    -- is logged only and the state is unchanged either way
    (true, s1)

/-- Statement order of the success path of `load_model` (lines 25-62):
CrossEncoder construction, FP16 setup, `load_time` assignment, the
`is_loaded = True` assignment, then the `_warmup()` predict calls begin
and end, then `return True`. -/
inductive LoadStep where
  | constructModel : LoadStep
  | fp16Setup : LoadStep
  | setLoadTime : LoadStep
  | setIsLoaded : LoadStep
  | warmupStart : LoadStep
  | warmupEnd : LoadStep
  | returnTrue : LoadStep
  deriving DecidableEq, Repr

/-- Event trace of the successful execution of `load_model`, in source
statement order. -/
def load_model_trace : List LoadStep :=
  [.constructModel, .fp16Setup, .setLoadTime, .setIsLoaded,
   .warmupStart, .warmupEnd, .returnTrue]

/-- Mirror of the validated `RerankRequest` (`src/server/schema/request.py`):
`top_k` defaults to 10 and is validated to be at least 1, so it is a `Nat`
here; `batch_size` may be absent. -/
structure RerankRequest where
  query : String
  documents : List String
  top_k : Nat := 10
  batch_size : Option Nat := none

/-- The clamp in the `/api/rerank` handler (http_server.py lines 77-79):
`if request.top_k > len(request.documents): request.top_k = len(request.documents)`. -/
def effective_top_k (top_k : Nat) (documents : List String) : Nat :=
  if top_k > documents.length then documents.length else top_k

/-- Translation of the `rerank_documents` handler (http_server.py lines
66-103): 503 when the model is not loaded, then the top_k clamp, then the
call into the engine. -/
def rerank_documents (s : ModelState) (req : RerankRequest) (elapsed : Score) :
    Except RerankError (List String × List Score × Metrics) × ModelState :=
  if !s.is_loaded then (.error .modelNotLoaded, s)
  else
    rerank s req.query req.documents
      (some (effective_top_k req.top_k req.documents)) req.batch_size elapsed

/-- A freshly loaded engine state around the scoring function `f`, with the
counters still at their `__init__` values. -/
def mkLoadedState (f : PredictFn) : ModelState :=
  { model := some f
    model_name := config.model_name
    device := config.device
    is_loaded := true
    load_time := 0
    total_queries := 0
    total_processing_time := 0 }

/-- Loaded state whose scoring step always raises. -/
def failing_state : ModelState := mkLoadedState (fun _ => .error "boom")

/-!  Helper lemmas characterising the three control paths of `rerank`. -/

/-- Helper: the early return of `rerank` on an empty document list. -/
theorem rerank_nil (s : ModelState) (q : String) (tk bs : Option Nat)
    (t : Score) (f : PredictFn) (hl : s.is_loaded = true) (hm : s.model = some f) :
    rerank s q [] tk bs t =
      (.ok ([], [], { processing_time := 0, documents_processed := 0,
                      batch_size := none, average_score := none,
                      max_score := none, min_score := none }), s) := by
  unfold rerank
  rw [hm]
  simp [hl]

/-- Helper: the result of `rerank` on the successful scoring path. -/
theorem rerank_ok (s : ModelState) (q : String) (docs : List String)
    (tk bs : Option Nat) (t : Score) (f : PredictFn) (scores : List Score)
    (hl : s.is_loaded = true) (hm : s.model = some f) (hne : docs ≠ [])
    (hf : f (docs.map fun d => (q, d)) = .ok scores) :
    rerank s q docs tk bs t =
      (.ok (((List.insertionSort descBy (docs.zip scores)).take
               (tk.getD docs.length)).map Prod.fst,
            ((List.insertionSort descBy (docs.zip scores)).take
               (tk.getD docs.length)).map Prod.snd,
            { processing_time := t
              documents_processed := docs.length
              batch_size := some (bs.getD config.batch_size)
              average_score := some (if scores.length > 0 then listMean scores else 0)
              max_score := some (if scores.length > 0 then listMax scores else 0)
              min_score := some (if scores.length > 0 then listMin scores else 0) }),
       { s with total_queries := s.total_queries + 1,
                total_processing_time := s.total_processing_time + t }) := by
  unfold rerank
  rw [hm]
  cases docs with
  | nil => exact absurd rfl hne
  | cons d ds =>
    simp only [List.map_cons] at hf
    simp [hl, hf]

/-- Helper: the result of `rerank` when the scoring step raises. -/
theorem rerank_err (s : ModelState) (q : String) (docs : List String)
    (tk bs : Option Nat) (t : Score) (f : PredictFn) (msg : String)
    (hl : s.is_loaded = true) (hm : s.model = some f) (hne : docs ≠ [])
    (hf : f (docs.map fun d => (q, d)) = .error msg) :
    rerank s q docs tk bs t =
      (.error (.scoringFailure msg),
       { s with total_queries := s.total_queries + 1 }) := by
  unfold rerank
  rw [hm]
  cases docs with
  | nil => exact absurd rfl hne
  | cons d ds =>
    simp only [List.map_cons] at hf
    simp [hl, hf]

/-- Helper: zipping the two projections of a pair list rebuilds the list. -/
theorem zip_fst_snd {α β : Type} (l : List (α × β)) :
    (l.map Prod.fst).zip (l.map Prod.snd) = l := by
  induction l with
  | nil => rfl
  | cons a l ih => simp [ih]

/-- Helper: inserting a pair whose score equals `c` places it before every
pair with score `c` already in the list: the pairs it jumps over all have a
strictly larger score. -/
theorem filter_orderedInsert_of_eq (c : Score) (a : String × Score)
    (l : List (String × Score)) (h : a.2 = c) :
    (List.orderedInsert descBy a l).filter (fun p => p.2 == c)
      = a :: l.filter (fun p => p.2 == c) := by
  induction l with
  | nil => simp [List.orderedInsert, h]
  | cons b l ih =>
    by_cases hb : descBy a b
    · simp [List.orderedInsert, hb, List.filter_cons, h]
    · have hbc : ¬ b.2 = c := fun hc => hb (le_of_eq (hc.trans h.symm))
      simp [List.orderedInsert, hb, List.filter_cons, hbc, ih]

/-- Helper: inserting a pair whose score differs from `c` does not change
the score-`c` subsequence. -/
theorem filter_orderedInsert_of_ne (c : Score) (a : String × Score)
    (l : List (String × Score)) (h : ¬ a.2 = c) :
    (List.orderedInsert descBy a l).filter (fun p => p.2 == c)
      = l.filter (fun p => p.2 == c) := by
  induction l with
  | nil => simp [List.orderedInsert, h]
  | cons b l ih =>
    by_cases hb : descBy a b
    · simp [List.orderedInsert, hb, List.filter_cons, h]
    · simp [List.orderedInsert, hb, List.filter_cons, ih]

/-- Helper (stability of the descending sort): for every score value `c`,
sorting does not change the subsequence of pairs whose score is `c`. -/
theorem filter_insertionSort (c : Score) (l : List (String × Score)) :
    (List.insertionSort descBy l).filter (fun p => p.2 == c)
      = l.filter (fun p => p.2 == c) := by
  induction l with
  | nil => rfl
  | cons a l ih =>
    by_cases ha : a.2 = c
    · simp only [List.insertionSort, filter_orderedInsert_of_eq c a _ ha, ih]
      simp [List.filter_cons, ha]
    · simp only [List.insertionSort, filter_orderedInsert_of_ne c a _ ha, ih]
      simp [List.filter_cons, ha]

/-- C9: calling `rerank` on a state where `is_loaded` is false raises
`ModelNotLoaded` (the `RuntimeError` at bge_reranker.py line 100) and leaves
the state, in particular `total_queries`, unchanged. -/
theorem rerank_not_loaded (s : ModelState) (q : String) (docs : List String)
    (tk bs : Option Nat) (t : Score) (h : s.is_loaded = false) :
    rerank s q docs tk bs t = (.error .modelNotLoaded, s)
    ∧ (rerank s q docs tk bs t).2.total_queries = s.total_queries := by
  have he : rerank s q docs tk bs t = (.error .modelNotLoaded, s) := by
    unfold rerank
    cases hsm : s.model with
    | none => rfl
    | some f => simp [h]
  exact ⟨he, by rw [he]⟩

/-- C9 witness: the freshly initialised engine rejects a concrete call and
its query counter stays at 0. -/
theorem rerank_not_loaded_witness :
    rerank init_state "q" ["d"] none none 0 = (.error .modelNotLoaded, init_state)
    ∧ (rerank init_state "q" ["d"] none none 0).2.total_queries
        = init_state.total_queries :=
  rerank_not_loaded init_state "q" ["d"] none none 0 rfl

/-- C10: `get_model_info` returns average 0 when `total_queries = 0` and the
quotient `total_processing_time / total_queries` otherwise; it never divides
by zero. -/
theorem get_model_info_no_div_by_zero (s : ModelState) :
    (s.total_queries = 0 → (get_model_info s).average_processing_time = 0)
    ∧ (0 < s.total_queries →
        (get_model_info s).average_processing_time
          = s.total_processing_time / (s.total_queries : Score)) := by
  constructor
  · intro h; simp [get_model_info, h]
  · intro h; simp [get_model_info, h]

/-- State after some completed calls, for the C10 witness. -/
def busy_state : ModelState :=
  { init_state with total_queries := 2, total_processing_time := 3 }

/-- C10 witness: both branches at concrete states. -/
theorem get_model_info_no_div_by_zero_witness :
    (get_model_info init_state).average_processing_time = 0
    ∧ (get_model_info busy_state).average_processing_time
        = busy_state.total_processing_time / (busy_state.total_queries : Score) :=
  ⟨(get_model_info_no_div_by_zero init_state).1 rfl,
   (get_model_info_no_div_by_zero busy_state).2 (by decide)⟩

/-- C5 (amended): on an empty document list a loaded engine returns, without
error, empty `ranked_documents` and `scores` and a metrics dict containing
only `processing_time = 0` and `documents_processed = 0`; the
`average_score`, `max_score`, `min_score` (and `batch_size`) keys are absent,
and the state is unchanged. -/
theorem rerank_empty_documents (s : ModelState) (q : String)
    (tk bs : Option Nat) (t : Score) (f : PredictFn)
    (hl : s.is_loaded = true) (hm : s.model = some f) :
    rerank s q [] tk bs t =
      (.ok ([], [], { processing_time := 0, documents_processed := 0,
                      batch_size := none, average_score := none,
                      max_score := none, min_score := none }), s) :=
  rerank_nil s q tk bs t f hl hm

/-- C5 witness: concrete empty-documents call. -/
theorem rerank_empty_documents_witness :
    rerank (mkLoadedState fun _ => Except.ok []) "q" [] none none 0 =
      (.ok ([], [], { processing_time := 0, documents_processed := 0,
                      batch_size := none, average_score := none,
                      max_score := none, min_score := none }),
       mkLoadedState fun _ => Except.ok []) :=
  rerank_empty_documents (mkLoadedState fun _ => Except.ok []) "q" none none 0
    (fun _ => Except.ok []) rfl rfl

/-- C5 counterexample: the claim says the empty-documents metrics carry
`average_score = 0.0`; in the code the key is absent (the early-return dict
has only two keys), so the returned `average_score` entry is not `0.0`. -/
theorem rerank_empty_average_score_absent :
    ¬ ((rerank (mkLoadedState fun _ => Except.ok []) "q" [] none none 0).1.map
        (fun r => r.2.2.average_score) = Except.ok (some 0)) := by decide

/-- C1 (amended): when the scoring step raises, the error propagates as
`ScoringFailure` and `cumulative_processing_time` is unchanged, but
`total_queries` was already incremented before the `try` block
(bge_reranker.py line 113) and is not rolled back: the failed call is
counted in `total_queries`. -/
theorem rerank_scoring_failure_counters (s : ModelState) (q : String)
    (docs : List String) (tk bs : Option Nat) (t : Score) (f : PredictFn)
    (msg : String) (hl : s.is_loaded = true) (hm : s.model = some f)
    (hne : docs ≠ []) (hf : f (docs.map fun d => (q, d)) = .error msg) :
    (rerank s q docs tk bs t).1 = .error (.scoringFailure msg)
    ∧ (rerank s q docs tk bs t).2.total_processing_time = s.total_processing_time
    ∧ (rerank s q docs tk bs t).2.total_queries = s.total_queries + 1 := by
  rw [rerank_err s q docs tk bs t f msg hl hm hne hf]
  exact ⟨rfl, rfl, rfl⟩

/-- C1 witness: concrete failing call. -/
theorem rerank_scoring_failure_counters_witness :
    (rerank failing_state "q" ["d"] none none 0).1
        = .error (.scoringFailure "boom")
    ∧ (rerank failing_state "q" ["d"] none none 0).2.total_processing_time
        = failing_state.total_processing_time
    ∧ (rerank failing_state "q" ["d"] none none 0).2.total_queries
        = failing_state.total_queries + 1 :=
  rerank_scoring_failure_counters failing_state "q" ["d"] none none 0
    (fun _ => Except.error "boom") "boom" rfl rfl (List.cons_ne_nil _ _) rfl

/-- C1 counterexample: a failed call does change `total_queries`, refuting
the claim that the counters are left as they were before the call. -/
theorem rerank_failure_increments_total_queries :
    (rerank failing_state "q" ["d"] none none 0).2.total_queries
      ≠ failing_state.total_queries := by decide

/-- C2 (amended): on the success path of `load_model`, `is_loaded` is
assigned true after model construction but before the warmup calls begin,
and a warmup failure neither reverts the flag nor makes `load_model` return
false. -/
theorem load_flag_before_warmup :
    load_model_trace.indexOf LoadStep.setIsLoaded
        < load_model_trace.indexOf LoadStep.warmupStart
    ∧ ∀ (f : PredictFn) (t : Score) (s : ModelState),
        warmup_succeeds f = false →
          (load_model (some f) t s).1 = true
          ∧ (load_model (some f) t s).2.is_loaded = true :=
  ⟨by decide, fun _ _ _ _ => ⟨rfl, rfl⟩⟩

/-- C2 witness: a concrete model whose warmup predict fails still loads with
the flag set. -/
theorem load_flag_before_warmup_witness :
    (load_model (some fun _ => Except.error "w") 0 init_state).1 = true
    ∧ (load_model (some fun _ => Except.error "w") 0 init_state).2.is_loaded
        = true :=
  load_flag_before_warmup.2 (fun _ => Except.error "w") 0 init_state rfl

/-- C2 counterexample: in the source statement order the `is_loaded = True`
assignment does not come after the warmup calls end; it precedes them. -/
theorem load_flag_not_set_after_warmup :
    ¬ (load_model_trace.indexOf LoadStep.warmupEnd
        < load_model_trace.indexOf LoadStep.setIsLoaded) := by decide

/-- C8: when the requested `top_k` exceeds the document count, the handler
clamp (http_server.py lines 77-79) sets the effective top_k to
`documents.length` and the request completes without error. -/
theorem rerank_top_k_clamped (s : ModelState) (req : RerankRequest) (t : Score)
    (f : PredictFn) (scores : List Score)
    (hl : s.is_loaded = true) (hm : s.model = some f)
    (hk : req.top_k > req.documents.length)
    (hf : f (req.documents.map fun d => (req.query, d)) = .ok scores) :
    effective_top_k req.top_k req.documents = req.documents.length
    ∧ ∃ rd sc m s2, rerank_documents s req t = (.ok (rd, sc, m), s2) := by
  have hcl : effective_top_k req.top_k req.documents = req.documents.length := by
    simp [effective_top_k, hk]
  refine ⟨hcl, ?_⟩
  unfold rerank_documents
  simp only [hl, Bool.not_true, Bool.false_eq_true, if_false]
  cases hd : req.documents with
  | nil => exact ⟨[], [], _, s, rerank_nil s req.query _ req.batch_size t f hl hm⟩
  | cons d ds =>
    rw [hd] at hf
    exact ⟨_, _, _, _, rerank_ok s req.query (d :: ds) _ req.batch_size t f scores
      hl hm (List.cons_ne_nil d ds) hf⟩

/-- Helper: `rerank` with no model object loaded. -/
theorem rerank_no_model (s : ModelState) (q : String) (docs : List String)
    (tk bs : Option Nat) (t : Score) (h : s.model = none) :
    rerank s q docs tk bs t = (.error .modelNotLoaded, s) := by
  unfold rerank
  rw [h]

/-- Helper: `rerank` with the loaded flag still false. -/
theorem rerank_unloaded (s : ModelState) (q : String) (docs : List String)
    (tk bs : Option Nat) (t : Score) (h : s.is_loaded = false) :
    rerank s q docs tk bs t = (.error .modelNotLoaded, s) := by
  unfold rerank
  cases hsm : s.model with
  | none => rfl
  | some f => simp [h]

/-- C3: the `average_score`, `max_score` and `min_score` metrics are the
mean, maximum and minimum of the scores of all input documents (the full
predict output), independent of the returned top_k subset. -/
theorem rerank_metrics_over_all_scores (s : ModelState) (q : String)
    (docs : List String) (tk bs : Option Nat) (t : Score) (f : PredictFn)
    (scores : List Score)
    (hl : s.is_loaded = true) (hm : s.model = some f) (hne : docs ≠ [])
    (hf : f (docs.map fun d => (q, d)) = .ok scores)
    (hlen : scores.length = docs.length) :
    (rerank s q docs tk bs t).1.map
        (fun r => (r.2.2.average_score, r.2.2.max_score, r.2.2.min_score))
      = .ok (some (listMean scores), some (listMax scores),
             some (listMin scores)) := by
  rw [rerank_ok s q docs tk bs t f scores hl hm hne hf]
  have h0 : scores.length > 0 := by
    rw [hlen]
    cases docs with
    | nil => exact absurd rfl hne
    | cons d ds => simp
  simp [Except.map, h0]

/-- The spec's running example of scores over three documents. -/
def spec_example_scores : List Score := [9/10, 1/10, 5/10]

/-- Loaded engine producing the spec's example scores. -/
def spec_example_state : ModelState :=
  mkLoadedState (fun _ => Except.ok spec_example_scores)

/-- C3 witness: the spec example: scores 0.9, 0.1, 0.5 with top_k = 1 yield
average 0.5, max 0.9, min 0.1 even though only one document is returned. -/
theorem rerank_metrics_over_all_scores_witness :
    (rerank spec_example_state "a" ["A", "B", "C"] (some 1) none 0).1.map
        (fun r => (r.2.2.average_score, r.2.2.max_score, r.2.2.min_score))
      = .ok (some (1/2), some (9/10), some (1/10)) := by
  have h := rerank_metrics_over_all_scores spec_example_state "a"
    ["A", "B", "C"] (some 1) none 0 (fun _ => Except.ok spec_example_scores)
    spec_example_scores rfl rfl (by simp) rfl rfl
  rw [h]
  simp only [spec_example_scores, listMean, listMax, listMin, List.sum_cons,
    List.sum_nil, List.length_cons, List.length_nil, List.foldl,
    max_def, min_def]
  norm_num

/-- C6: whenever `rerank` returns successfully, the returned score sequence
is non-increasing: each score is at least the next one. -/
theorem rerank_scores_nonincreasing (s : ModelState) (q : String)
    (docs : List String) (tk bs : Option Nat) (t : Score)
    (rd : List String) (sc : List Score) (m : Metrics)
    (hr : (rerank s q docs tk bs t).1 = .ok (rd, sc, m)) :
    sc.Sorted (fun x y : Score => y ≤ x) := by
  rcases hsm : s.model with _ | f
  · rw [rerank_no_model s q docs tk bs t hsm] at hr
    exact absurd hr (by simp)
  · rcases hl : s.is_loaded with _ | _
    · rw [rerank_unloaded s q docs tk bs t hl] at hr
      exact absurd hr (by simp)
    · rcases hdocs : docs with _ | ⟨d, ds⟩
      · rw [hdocs, rerank_nil s q tk bs t f hl hsm] at hr
        simp only [Except.ok.injEq, Prod.mk.injEq] at hr
        obtain ⟨-, h2, -⟩ := hr
        exact h2 ▸ List.sorted_nil
      · rcases hfp : f ((d :: ds).map fun x => (q, x)) with msg | scores
        · rw [hdocs, rerank_err s q (d :: ds) tk bs t f msg hl hsm
            (List.cons_ne_nil d ds) hfp] at hr
          exact absurd hr (by simp)
        · rw [hdocs, rerank_ok s q (d :: ds) tk bs t f scores hl hsm
            (List.cons_ne_nil d ds) hfp] at hr
          simp only [Except.ok.injEq, Prod.mk.injEq] at hr
          obtain ⟨-, h2, -⟩ := hr
          subst h2
          have hs : List.Sorted descBy
              (List.insertionSort descBy ((d :: ds).zip scores)) :=
            List.sorted_insertionSort descBy _
          have ht : List.Sorted descBy
              ((List.insertionSort descBy ((d :: ds).zip scores)).take
                 (tk.getD (d :: ds).length)) :=
            List.Pairwise.sublist (List.take_sublist _ _) hs
          exact List.pairwise_map.mpr ht

/-- Loaded engine used by the C6 and C7 witnesses. -/
def state_sorted_ex : ModelState := mkLoadedState (fun _ => Except.ok [1, 9, 5])

/-- C6 witness: concrete call returning scores [9, 5], which are
non-increasing. -/
theorem rerank_scores_nonincreasing_witness :
    ([9, 5] : List Score).Sorted (fun x y => y ≤ x) :=
  rerank_scores_nonincreasing state_sorted_ex "q" ["x", "y", "z"] (some 2)
    none 0 ["y", "z"] [9, 5]
    { processing_time := 0, documents_processed := 3, batch_size := some 32,
      average_score := some (listMean [1, 9, 5]),
      max_score := some (listMax [1, 9, 5]),
      min_score := some (listMin [1, 9, 5]) }
    (by rfl)

/-- C7: for a non-empty document list, the returned document and score lists
have equal length, at most min(top_k, number of documents); an absent top_k
defaults to the number of documents. -/
theorem rerank_result_lengths (s : ModelState) (q : String)
    (docs : List String) (tk bs : Option Nat) (t : Score) (f : PredictFn)
    (scores : List Score) (rd : List String) (sc : List Score) (m : Metrics)
    (hl : s.is_loaded = true) (hm : s.model = some f) (hne : docs ≠ [])
    (hf : f (docs.map fun d => (q, d)) = .ok scores)
    (hr : (rerank s q docs tk bs t).1 = .ok (rd, sc, m)) :
    rd.length = sc.length
    ∧ rd.length ≤ min (tk.getD docs.length) docs.length := by
  rw [rerank_ok s q docs tk bs t f scores hl hm hne hf] at hr
  simp only [Except.ok.injEq, Prod.mk.injEq] at hr
  obtain ⟨h1, h2, -⟩ := hr
  subst h1
  subst h2
  constructor
  · simp
  · simp only [List.length_map, List.length_take, List.length_insertionSort,
      List.length_zip]
    omega

/-- C7 witness: three documents, top_k 2: both returned lists have length
2 = min(2, 3). -/
theorem rerank_result_lengths_witness :
    (["y", "z"] : List String).length = ([9, 5] : List Score).length
    ∧ (["y", "z"] : List String).length
        ≤ min ((some 2).getD (["x", "y", "z"] : List String).length)
            (["x", "y", "z"] : List String).length :=
  rerank_result_lengths state_sorted_ex "q" ["x", "y", "z"] (some 2) none 0
    (fun _ => Except.ok [1, 9, 5]) [1, 9, 5] ["y", "z"] [9, 5]
    { processing_time := 0, documents_processed := 3, batch_size := some 32,
      average_score := some (listMean [1, 9, 5]),
      max_score := some (listMax [1, 9, 5]),
      min_score := some (listMin [1, 9, 5]) }
    rfl rfl (by simp) rfl (by rfl)

/-- C4: stability of the descending sort: for every score value `c`, the
returned (document, score) pairs with score `c` form a prefix of the input
pairs with score `c`, so tied documents keep their input order. -/
theorem rerank_sort_stable (s : ModelState) (q : String) (docs : List String)
    (tk bs : Option Nat) (t : Score) (f : PredictFn) (scores : List Score)
    (rd : List String) (sc : List Score) (m : Metrics) (c : Score)
    (hl : s.is_loaded = true) (hm : s.model = some f) (hne : docs ≠ [])
    (hf : f (docs.map fun d => (q, d)) = .ok scores)
    (hr : (rerank s q docs tk bs t).1 = .ok (rd, sc, m)) :
    ∃ rest, (docs.zip scores).filter (fun p => p.2 == c)
      = (rd.zip sc).filter (fun p => p.2 == c) ++ rest := by
  rw [rerank_ok s q docs tk bs t f scores hl hm hne hf] at hr
  simp only [Except.ok.injEq, Prod.mk.injEq] at hr
  obtain ⟨h1, h2, -⟩ := hr
  subst h1
  subst h2
  rw [zip_fst_snd]
  refine ⟨((List.insertionSort descBy (docs.zip scores)).drop
      (tk.getD docs.length)).filter (fun p => p.2 == c), ?_⟩
  rw [← List.filter_append, List.take_append_drop, filter_insertionSort]

/-- Loaded engine returning all-equal scores, for the C4 witness. -/
def ties_state : ModelState := mkLoadedState (fun _ => Except.ok [5, 5, 5])

/-- C4 witness: three tied documents with top_k 2 come back as ["x", "y"]:
the returned tied pairs are a prefix of the input tied pairs. -/
theorem rerank_sort_stable_witness :
    ∃ rest, ((["x", "y", "z"] : List String).zip ([5, 5, 5] : List Score)).filter
        (fun p => p.2 == (5 : Score))
      = ((["x", "y"] : List String).zip ([5, 5] : List Score)).filter
          (fun p => p.2 == (5 : Score)) ++ rest :=
  rerank_sort_stable ties_state "q" ["x", "y", "z"] (some 2) none 0
    (fun _ => Except.ok [5, 5, 5]) [5, 5, 5] ["x", "y"] [5, 5]
    { processing_time := 0, documents_processed := 3, batch_size := some 32,
      average_score := some (listMean [5, 5, 5]),
      max_score := some (listMax [5, 5, 5]),
      min_score := some (listMin [5, 5, 5]) }
    5 rfl rfl (by simp) rfl (by rfl)

/-- Concrete over-large-top_k request for the C8 witness. -/
def req_ex : RerankRequest := { query := "q", documents := ["d1", "d2"], top_k := 5 }

/-- Loaded engine behind the C8 witness request. -/
def state_ex : ModelState := mkLoadedState (fun _ => Except.ok [7, 3])

/-- C8 witness: a request with top_k 5 over 2 documents is clamped to 2 and
completes. -/
theorem rerank_top_k_clamped_witness :
    effective_top_k req_ex.top_k req_ex.documents = req_ex.documents.length
    ∧ ∃ rd sc m s2, rerank_documents state_ex req_ex 0 = (.ok (rd, sc, m), s2) :=
  rerank_top_k_clamped state_ex req_ex 0 (fun _ => Except.ok [7, 3]) [7, 3]
    rfl rfl (by decide) rfl

end RerankerService
